import Mathlib

/-!
Verification of the telemetry acquisition and caching core of the
FullStack_SNMP repository, shallowly embedded from
`snmp_iot_monitor/backend/snmp_manager.py` and
`snmp_iot_monitor/backend/enhanced_snmp_agent.py`.

Numeric conventions of the embedding:
* Python floats are modelled as exact rationals (`ℚ`); Python ints as `ℤ`.
* `int(x)` on a float is truncation toward zero, modelled by `pyTrunc`.
* `round(x, n)` is round-half-to-even on the scaled value, modelled by
  `roundHalfEven` / `round1` / `round2` / `round0`.
* `math.sin(...)` and `random.uniform(a, b)` produce real values that are
  not rational-computable; every such value is passed in as an explicit
  parameter of the embedded function (a "draw"), so each generator is the
  same deterministic function of its draws that the source is of its
  library calls.
* A Python function that can raise is embedded with an `Option`/`Except`
  result, `none`/`.error` exactly on the raising executions.
* The `str(...)`/`float(...)`/`int(...)` round trips between manager and
  simulator carry numeric values unchanged, so values travel as `ℚ`
  directly; Python truthiness `if value:` on the `Optional[str]` result is
  `Option.isSome` (every string the simulator returns is nonempty).
-/

namespace SNMP

/-- Truncation toward zero, the semantics of `int(x)` on a Python float. -/
def pyTrunc (x : ℚ) : ℤ :=
  if 0 ≤ x then ⌊x⌋ else ⌈x⌉

/-- Round-half-to-even on rationals, the semantics of Python `round`. -/
def roundHalfEven (x : ℚ) : ℤ :=
  if x - ⌊x⌋ < 1/2 then ⌊x⌋
  else if 1/2 < x - ⌊x⌋ then ⌊x⌋ + 1
  else if ⌊x⌋ % 2 = 0 then ⌊x⌋ else ⌊x⌋ + 1

/-- Python `round(x, 1)`. -/
def round1 (x : ℚ) : ℚ := (roundHalfEven (10 * x) : ℚ) / 10

/-- Python `round(x, 2)`. -/
def round2 (x : ℚ) : ℚ := (roundHalfEven (100 * x) : ℚ) / 100

/-- Python `round(x, 0)` (result stays a float, hence `ℚ` here). -/
def round0 (x : ℚ) : ℚ := (roundHalfEven x : ℚ)

/-- Auxiliary for substring search: does `hay` start with `needle`? -/
def leadEq : List Char → List Char → Bool
  | [], _ => true
  | _ :: _, [] => false
  | a :: as, b :: bs => a == b && leadEq as bs

/-- Substring containment on character lists. -/
def listHasSub (needle : List Char) : List Char → Bool
  | [] => needle.isEmpty
  | b :: bs => leadEq needle (b :: bs) || listHasSub needle bs

/-- Python `needle in hay` on strings. -/
def strContains (needle hay : String) : Bool :=
  listHasSub needle.toList hay.toList

/-- Python float `%` with a positive modulus (used for `% 86400`). -/
def pyMod (x m : ℚ) : ℚ := x - m * ⌊x / m⌋

/-! ## Manager-side data model (`snmp_manager.py`)

`EngineData` embeds the cache entry class of `snmp_manager.py` lines 21-57;
`update_health_status` is its method at lines 35-42. -/

/-- Health classification values assigned by `update_health_status`
    ("unknown" is the constructor-time initial value). -/
inductive HealthStatus
  | unknown
  | normal
  | warning
  | critical
deriving DecidableEq, Repr

/-- Cache entry for one engine (class `EngineData` of `snmp_manager.py`). -/
structure EngineData where
  engine_id : String
  port : ℤ
  temperature : ℚ
  rpm : ℤ
  current : ℚ
  power : ℤ
  status : ℤ
  uptime : ℤ
  last_updated : Option ℚ
  health_status : HealthStatus
deriving DecidableEq, Repr

/-- Constructor `EngineData.__init__(engine_id, port)`: all readings zeroed,
    `last_updated = None`, `health_status = "unknown"`. -/
def EngineData.init (engine_id : String) (port : ℤ) : EngineData :=
  { engine_id := engine_id, port := port, temperature := 0, rpm := 0,
    current := 0, power := 0, status := 0, uptime := 0,
    last_updated := none, health_status := .unknown }

/-- Method `EngineData.update_health_status` (lines 35-42): classify by the
    current temperature field. -/
def update_health_status (e : EngineData) : EngineData :=
  if 100 < e.temperature then { e with health_status := .critical }
  else if 80 < e.temperature then { e with health_status := .warning }
  else { e with health_status := .normal }

/-! ## OID table and the simulation-data generator -/

/-- OID mapped to `temperature` in `SNMPManager.__init__` (line 74). -/
def oid_temperature : String := "1.3.6.1.4.1.9999.1.1.1.0"

/-- OID mapped to `rpm` (line 75). -/
def oid_rpm : String := "1.3.6.1.4.1.9999.1.1.2.0"

/-- OID mapped to `current` (line 76). -/
def oid_current : String := "1.3.6.1.4.1.9999.1.1.3.0"

/-- OID mapped to `power` (line 77). -/
def oid_power : String := "1.3.6.1.4.1.9999.1.1.4.0"

/-- OID mapped to `status` (line 78). -/
def oid_status : String := "1.3.6.1.4.1.9999.1.1.5.0"

/-- OID mapped to `uptime` (line 79). -/
def oid_uptime : String := "1.3.6.1.4.1.9999.1.1.6.0"

/-- The `self.oids` mapping, in its insertion order (lines 73-80). -/
def manager_oids : List (String × String) :=
  [("temperature", oid_temperature), ("rpm", oid_rpm),
   ("current", oid_current), ("power", oid_power),
   ("status", oid_status), ("uptime", oid_uptime)]

/-- Per-engine base values of `_generate_simulation_data` (lines 130-134). -/
structure BaseVals where
  temp : ℚ
  rpm : ℚ
  current : ℚ
  power : ℚ

/-- The `base_values` dictionary lookup with default `Engine-3`
    (lines 130-136). -/
def base_values (engine_id : String) : BaseVals :=
  if engine_id = "Engine-1" then ⟨42, 1750, 11.8, 1450⟩
  else if engine_id = "Engine-2" then ⟨48, 1850, 13.2, 1620⟩
  else if engine_id = "Engine-3" then ⟨45, 1800, 12.5, 1500⟩
  else ⟨45, 1800, 12.5, 1500⟩

/-- Line 129: `engine_id = f"Engine-{port - 1610}"`. -/
def engine_of_port (port : ℤ) : String :=
  "Engine-" ++ toString (port - 1610)

/-- The library-supplied quantities consumed by one call to
    `_generate_simulation_data`: the two `math.sin` values (each in
    `[-1, 1]` in any real execution), the `random.uniform(-0.1, 0.1)`
    draw, and `time.time()`. -/
structure SimFactors where
  time_factor : ℚ
  cycle_factor : ℚ
  random_factor : ℚ
  current_time : ℚ

/-- Method `SNMPManager._generate_simulation_data` (lines 120-166).  The branch
    conditions are the source's substring tests such as
    `'temperature' in oid`; the numeric string results travel as exact
    rationals (`str` and the caller's `float`/`int` parses cancel). -/
def generate_simulation_data (oid : String) (port : ℤ) (f : SimFactors) : ℚ :=
  let base := base_values (engine_of_port port)
  if strContains "temperature" oid then
    round1 (max 20 (min 120 (base.temp + f.time_factor * 3 + f.cycle_factor * 5 + f.random_factor * 2)))
  else if strContains "rpm" oid then
    (pyTrunc (max 500 (min 3000 (base.rpm + f.time_factor * 50 + f.cycle_factor * 30 + f.random_factor * 20))) : ℚ)
  else if strContains "current" oid then
    round2 (max 0 (min 30 (base.current + f.time_factor * 1.5 + f.cycle_factor * 1 + f.random_factor * 0.5)))
  else if strContains "power" oid then
    (pyTrunc (max 0 (min 2500 (base.power + f.time_factor * 200 + f.cycle_factor * 150 + f.random_factor * 100))) : ℚ)
  else if strContains "status" oid then 1
  else if strContains "uptime" oid then
    (pyTrunc (pyMod f.current_time 86400) : ℚ)
  else 0

/-- The possible fates of the real-SNMP attempt in `query_snmp_agent`
    (lines 87-118): pysnmp missing, `errorIndication` set, `errorStatus`
    set, any exception raised, or a successful response carrying a list
    of variable bindings. -/
inductive RealOutcome
  | no_pysnmp
  | err_indication
  | err_status
  | exn
  | success (varBinds : List ℚ)

/-- Method `SNMPManager.query_snmp_agent` (lines 87-118): every failure mode
    falls back to `_generate_simulation_data`; a success returns the
    first variable binding, or Python `None` when `varBinds` is empty
    (the `for` loop body never runs and the function falls through). -/
def query_snmp_agent (r : RealOutcome) (oid : String) (port : ℤ)
    (f : SimFactors) : Option ℚ :=
  match r with
  | .success varBinds => varBinds.head?
  | _ => some (generate_simulation_data oid port f)

/-! ## The per-engine cache update (`update_engine_data`, lines 168-195) -/

/-- One iteration of the parameter loop at lines 174-188: store the
    queried value into the field selected by the parameter name
    (`float(...)` is the identity on our rationals, `int(...)` is
    `pyTrunc` — exact on the whole-number strings the simulator emits). -/
def apply_param (e : EngineData) (param : String) (v : ℚ) : EngineData :=
  if param = "temperature" then { e with temperature := v }
  else if param = "rpm" then { e with rpm := pyTrunc v }
  else if param = "current" then { e with current := v }
  else if param = "power" then { e with power := pyTrunc v }
  else if param = "status" then { e with status := pyTrunc v }
  else if param = "uptime" then { e with uptime := pyTrunc v }
  else e

/-- The parameter loop of `update_engine_data` (lines 174-188): fold the
    six queries over the cache entry, skipping falsy (`None`) results. -/
def poll_fold (e : EngineData) (query : String → ℤ → Option ℚ) : EngineData :=
  manager_oids.foldl
    (fun acc po =>
      match query po.2 acc.port with
      | some v => apply_param acc po.1 v
      | none => acc) e

/-- Method `SNMPManager.update_engine_data` (lines 168-195): query every OID of
    `self.oids` in order, store each truthy result, then recompute the
    health status and stamp `last_updated`.  The query is abstracted as a
    function of the OID and port so that both the real and the fallback
    path instantiate it. -/
def update_engine_data (e : EngineData) (query : String → ℤ → Option ℚ)
    (now : ℚ) : EngineData :=
  { update_health_status (poll_fold e query) with last_updated := some now }

/-! ## Fleet summary (`get_engines_summary`, lines 238-257) -/

/-- Result record of `get_engines_summary`.  The Python
    `health_distribution` dictionary (statuses present mapped to their
    counts, absent statuses omitted) is the count function here. -/
structure EnginesSummary where
  total_engines : ℕ
  running_engines : ℕ
  avg_temperature : ℚ
  avg_power : ℚ
  health_distribution : HealthStatus → ℕ

/-- Method `SNMPManager.get_engines_summary` (lines 238-257) over the fleet's
    cache entries in iteration order.  The two average lines divide by
    `total_engines` with no guard, so an empty fleet raises
    `ZeroDivisionError`; the embedding returns `none` exactly there. -/
def get_engines_summary (engines : List EngineData) : Option EnginesSummary :=
  if engines.length = 0 then none
  else some
    { total_engines := engines.length
      running_engines := (engines.filter (fun e => e.status = 1)).length
      avg_temperature :=
        round1 ((engines.map (fun e => e.temperature)).sum / (engines.length : ℚ))
      avg_power :=
        round0 ((engines.map (fun e => (e.power : ℚ))).sum / (engines.length : ℚ))
      health_distribution := fun s =>
        (engines.filter (fun e => e.health_status = s)).length }

/-- Modelled from the spec wording for comparison: the arithmetic mean of
    a list of rationals. -/
def arithmeticMean (xs : List ℚ) : ℚ := xs.sum / (xs.length : ℚ)

/-! ## The polling loop (`start_polling`, lines 202-218)

One iteration of `polling_loop` is: run `poll_all_engines()`, then sleep
`poll_interval`; if the body raises, print the error and sleep 5 instead.
`polling_delays` maps a finite schedule of cycle fates to the sleep taken
after each cycle; the loop itself only stops when `running` is cleared,
never because a cycle raised. -/

/-- Constant `self.poll_interval = 2` (line 85). -/
def poll_interval : ℚ := 2

/-- Sleep sequence of the `polling_loop` thread body (lines 207-214) over
    a finite schedule of cycle fates. -/
def polling_delays : List (Except String Unit) → List ℚ
  | [] => []
  | Except.ok _ :: rest => poll_interval :: polling_delays rest
  | Except.error _ :: rest => 5 :: polling_delays rest

/-! ## Field-by-field cache writes (`update_engine_data` as seen by a
concurrent reader)

`update_engine_data` mutates the shared `EngineData` object one field at
a time (lines 177-188), then writes `health_status` (line 191) and
`last_updated` (line 192), while `get_all_engines_data`/`get_engine_data`
read the live object at any time.  `poll_writes` is that write sequence;
`observed e v k` is the entry a reader sees after the first `k` single
writes of a poll carrying values `v`. -/

/-- The values one poll cycle stores (each parameter's queried value and
    the `datetime.now()` timestamp). -/
structure PollValues where
  temperature : ℚ
  rpm : ℤ
  current : ℚ
  power : ℤ
  status : ℤ
  uptime : ℤ
  now : ℚ
deriving DecidableEq, Repr

/-- One single-field assignment to the shared cache entry. -/
inductive CacheWrite
  | wtemperature (v : ℚ)
  | wrpm (v : ℤ)
  | wcurrent (v : ℚ)
  | wpower (v : ℤ)
  | wstatus (v : ℤ)
  | wuptime (v : ℤ)
  | whealth (h : HealthStatus)
  | wlast (t : ℚ)
deriving DecidableEq, Repr

/-- Execute one single-field assignment. -/
def apply_write (e : EngineData) : CacheWrite → EngineData
  | .wtemperature v => { e with temperature := v }
  | .wrpm v => { e with rpm := v }
  | .wcurrent v => { e with current := v }
  | .wpower v => { e with power := v }
  | .wstatus v => { e with status := v }
  | .wuptime v => { e with uptime := v }
  | .whealth h => { e with health_status := h }
  | .wlast t => { e with last_updated := some t }

/-- The health value `update_health_status` assigns for temperature `t`. -/
def classify_temp (t : ℚ) : HealthStatus :=
  if 100 < t then .critical else if 80 < t then .warning else .normal

/-- The in-order write sequence of one `update_engine_data` call
    (lines 177-192): the six parameter fields in `self.oids` order, then
    the health status computed from the freshly written temperature, then
    the timestamp. -/
def poll_writes (v : PollValues) : List CacheWrite :=
  [.wtemperature v.temperature, .wrpm v.rpm, .wcurrent v.current,
   .wpower v.power, .wstatus v.status, .wuptime v.uptime,
   .whealth (classify_temp v.temperature), .wlast v.now]

/-- The cache entry a concurrent reader observes after the first `k`
    single-field writes of a poll have executed. -/
def observed (e : EngineData) (v : PollValues) (k : ℕ) : EngineData :=
  ((poll_writes v).take k).foldl apply_write e

/-- Field-level comparison of an observed entry against the pre-poll and
    post-poll snapshots: identity fields unchanged, every other field
    holding either its old or its new value. -/
def fields_old_or_new (mid old fin : EngineData) : Prop :=
  mid.engine_id = old.engine_id ∧
  mid.port = old.port ∧
  (mid.temperature = old.temperature ∨ mid.temperature = fin.temperature) ∧
  (mid.rpm = old.rpm ∨ mid.rpm = fin.rpm) ∧
  (mid.current = old.current ∨ mid.current = fin.current) ∧
  (mid.power = old.power ∨ mid.power = fin.power) ∧
  (mid.status = old.status ∨ mid.status = fin.status) ∧
  (mid.uptime = old.uptime ∨ mid.uptime = fin.uptime) ∧
  (mid.health_status = old.health_status ∨ mid.health_status = fin.health_status) ∧
  (mid.last_updated = old.last_updated ∨ mid.last_updated = fin.last_updated)

/-! ## Agent-side data model (`enhanced_snmp_agent.py`)

`EnhancedEngineSNMPAgent` holds base parameters, a start time, a MIB
catalog of six OIDs with getter functions, and the bounded message log. -/

/-- Tag naming which getter method a MIB entry dispatches to. -/
inductive GetterId
  | gtemperature
  | grpm
  | gcurrent
  | gpower
  | gstatus
  | guptime
deriving DecidableEq, Repr

/-- One value of the `mib_definitions` dictionary (lines 41-90); the
    source key `type` is `dtype` here (`type` is a Lean keyword). -/
structure MibEntry where
  name : String
  description : String
  dtype : String
  units : String
  access : String
  getter : GetterId
deriving DecidableEq, Repr

/-- The `mib_definitions` catalog (lines 41-90), in insertion order. -/
def mib_definitions : List (String × MibEntry) :=
  [(oid_temperature,
    ⟨"engineTemperature", "Engine Temperature in Celsius", "Gauge32", "°C", "read-only", .gtemperature⟩),
   (oid_rpm,
    ⟨"engineRPM", "Engine RPM (Revolutions Per Minute)", "Gauge32", "RPM", "read-only", .grpm⟩),
   (oid_current,
    ⟨"engineCurrent", "Engine Electrical Current", "Gauge32", "Amperes", "read-only", .gcurrent⟩),
   (oid_power,
    ⟨"enginePowerOutput", "Engine Power Output", "Gauge32", "Watts", "read-only", .gpower⟩),
   (oid_status,
    ⟨"engineStatus", "Engine Operational Status", "Integer32", "Status", "read-only", .gstatus⟩),
   (oid_uptime,
    ⟨"engineUptime", "Engine Uptime in seconds", "TimeTicks", "seconds", "read-only", .guptime⟩)]

/-- Dictionary lookup `self.mib_definitions.get(oid)` /
    `oid in self.mib_definitions`. -/
def mib_lookup (oid : String) : Option MibEntry :=
  (mib_definitions.find? (fun p => p.1 = oid)).map (fun p => p.2)

/-- Message kinds logged by `log_snmp_message`
    (`GET_REQUEST` / `GET_RESPONSE` / `ERROR`). -/
inductive MessageType
  | getRequest
  | getResponse
  | errorReport
deriving DecidableEq, Repr

/-- One entry of `self.message_log` (the dictionary built at
    lines 102-114); the source key `error` keeps its name. -/
structure LogRecord where
  timestamp : ℕ
  engine_id : String
  message_type : MessageType
  oid : String
  mib_name : String
  value : Option ℚ
  error : Option String
  port : ℤ
  community : String
  data_type : String
  access : String
deriving DecidableEq, Repr

/-- The identity-and-configuration part of an agent used when building a
    log record. -/
structure AgentCtx where
  engine_id : String
  port : ℤ
  community : String
deriving DecidableEq, Repr

/-- Constant `self.max_log_entries = 100` (line 38). -/
def max_log_entries : ℕ := 100

/-- The `log_entry` dictionary built by `log_snmp_message`
    (lines 97-114), with MIB metadata defaulting to "Unknown" for
    unknown OIDs. -/
def logEntry (ctx : AgentCtx) (ts : ℕ) (mt : MessageType) (oid : String)
    (value : Option ℚ) (err : Option String) : LogRecord :=
  { timestamp := ts
    engine_id := ctx.engine_id
    message_type := mt
    oid := oid
    mib_name := ((mib_lookup oid).map (fun m => m.name)).getD "Unknown"
    value := value
    error := err
    port := ctx.port
    community := ctx.community
    data_type := ((mib_lookup oid).map (fun m => m.dtype)).getD "Unknown"
    access := ((mib_lookup oid).map (fun m => m.access)).getD "Unknown" }

/-- Method `EnhancedEngineSNMPAgent.log_snmp_message` (lines 95-120): build the
    record, append it, and pop the head once if the log then exceeds
    `max_log_entries`. -/
def log_snmp_message (ctx : AgentCtx) (ts : ℕ) (log : List LogRecord)
    (mt : MessageType) (oid : String) (value : Option ℚ)
    (err : Option String) : List LogRecord :=
  let appended := log ++ [logEntry ctx ts mt oid value err]
  if max_log_entries < appended.length then appended.drop 1 else appended

/-- The arguments of one `log_snmp_message` call. -/
structure LogInput where
  ts : ℕ
  mt : MessageType
  oid : String
  value : Option ℚ
  err : Option String

/-- A sequence of `log_snmp_message` calls starting from log `init`. -/
def log_fold (ctx : AgentCtx) (inputs : List LogInput)
    (init : List LogRecord) : List LogRecord :=
  inputs.foldl
    (fun log i => log_snmp_message ctx i.ts log i.mt i.oid i.value i.err) init

/-- Method `EnhancedEngineSNMPAgent.handle_snmp_request` (lines 205-222).  The
    getter call is abstracted as `eval`, returning `.error msg` exactly
    when the Python getter would raise an exception with message `msg`;
    the surrounding `try`/`except` is the outer `match`, so the embedded
    function is total exactly as the source never lets an exception
    escape.  Returns the Python return value paired with the new log. -/
def handle_snmp_request (ctx : AgentCtx) (ts : ℕ)
    (eval : GetterId → Except String ℚ) (log : List LogRecord)
    (oid : String) : Option ℚ × List LogRecord :=
  match mib_lookup oid with
  | some mib =>
    match eval mib.getter with
    | .ok value =>
      let log1 := log_snmp_message ctx ts log .getRequest oid none none
      let log2 := log_snmp_message ctx ts log1 .getResponse oid (some value) none
      (some value, log2)
    | .error e =>
      (none, log_snmp_message ctx ts log .errorReport oid none (some e))
  | none =>
    (none, log_snmp_message ctx ts log .errorReport oid none
      (some ("OID " ++ oid ++ " not found")))

/-! ## Agent generator functions (lines 147-203) -/

/-- Base parameters and start time of one enhanced agent. -/
structure EnhancedAgent where
  engine_id : String
  port : ℤ
  base_temp : ℚ
  base_rpm : ℚ
  base_current : ℚ
  base_power : ℚ
  start_time : ℚ
deriving DecidableEq, Repr

/-- Getter `get_temperature` (lines 147-158): base plus `5 * sin` daily cycle,
    a `uniform(-2, 2)` draw, and `0.3 * sin` load factor, clamped to
    `[20, 120]` and rounded to one decimal.  `sin_daily`, `noise` and
    `sin_load` are the library draws of this call. -/
def get_temperature (a : EnhancedAgent) (sin_daily noise sin_load : ℚ) : ℚ :=
  round1 (max 20 (min 120 (a.base_temp + 5 * sin_daily + noise + 0.3 * sin_load)))

/-- Getter `get_rpm` (lines 160-170): base plus `200 * sin` load cycle plus a
    `uniform(-50, 50)` draw, clamped to `[500, 3500]` and truncated. -/
def get_rpm (a : EnhancedAgent) (sin_load noise : ℚ) : ℤ :=
  pyTrunc (max 500 (min 3500 (a.base_rpm + 200 * sin_load + noise)))

/-- Getter `get_current` (lines 172-182): base plus five times the `0.5 * sin`
    load factor plus a `uniform(-1, 1)` draw, clamped to `[0, 30]` and
    rounded to two decimals. -/
def get_current (a : EnhancedAgent) (sin_load noise : ℚ) : ℚ :=
  round2 (max 0 (min 30 (a.base_current + (0.5 * sin_load) * 5 + noise)))

/-- The power law of `get_power` (lines 190-194) as a function of the
    already-sampled rpm and current values:
    `int(max(0, min(3000, base_power * (rpm/3000) * (current/20))))`. -/
def power_from (base_power : ℚ) (rpm : ℤ) (current : ℚ) : ℤ :=
  pyTrunc (max 0 (min 3000 (base_power * (((rpm : ℚ) / 3000) * (current / 20)))))

/-- Getter `get_power` (lines 184-194): sample `get_rpm` and `get_current`
    (each with fresh draws) and apply the multiplicative power law. -/
def get_power (a : EnhancedAgent) (rpm_sin rpm_noise cur_sin cur_noise : ℚ) : ℤ :=
  power_from a.base_power (get_rpm a rpm_sin rpm_noise) (get_current a cur_sin cur_noise)

/-- Getter `get_status` (lines 196-199): constantly 1 (Running). -/
def get_status (_ : EnhancedAgent) : ℤ := 1

/-- Getter `get_uptime` (lines 201-203): `int(time.time() - self.start_time)`. -/
def get_uptime (a : EnhancedAgent) (now : ℚ) : ℤ :=
  pyTrunc (now - a.start_time)

/-! ## Helper lemmas about the numeric primitives -/

theorem roundHalfEven_cases (x : ℚ) :
    roundHalfEven x = ⌊x⌋ ∨ roundHalfEven x = ⌊x⌋ + 1 := by
  unfold roundHalfEven
  split
  · exact Or.inl rfl
  · split
    · exact Or.inr rfl
    · split
      · exact Or.inl rfl
      · exact Or.inr rfl

theorem roundHalfEven_bounds (A B : ℤ) (x : ℚ)
    (hA : (A : ℚ) ≤ x) (hB : x ≤ (B : ℚ)) :
    A ≤ roundHalfEven x ∧ roundHalfEven x ≤ B := by
  have hfA : A ≤ ⌊x⌋ := Int.le_floor.mpr hA
  have hfB : ⌊x⌋ ≤ B := by
    have := Int.floor_le_floor hB
    simpa using this
  rcases roundHalfEven_cases x with h | h
  · exact ⟨by omega, by omega⟩
  · -- the rounded-up case only occurs when x is strictly above its floor
    have hup : (⌊x⌋ : ℚ) < x := by
      by_contra hle
      push_neg at hle
      have hxe : x - (⌊x⌋ : ℚ) = 0 := by
        have := Int.floor_le x
        linarith
      unfold roundHalfEven at h
      rw [hxe] at h
      norm_num at h
    have hlt : ⌊x⌋ < B := by
      by_contra hge
      push_neg at hge
      have : (B : ℚ) ≤ (⌊x⌋ : ℚ) := by exact_mod_cast hge
      have : x < x := lt_of_le_of_lt (le_trans hB this) hup
      exact absurd this (lt_irrefl x)
    exact ⟨by omega, by omega⟩

theorem round1_bounds (a b : ℤ) (x : ℚ)
    (ha : (a : ℚ) ≤ x) (hb : x ≤ (b : ℚ)) :
    (a : ℚ) ≤ round1 x ∧ round1 x ≤ (b : ℚ) := by
  have h := roundHalfEven_bounds (10 * a) (10 * b) (10 * x)
    (by push_cast; linarith) (by push_cast; linarith)
  obtain ⟨h1, h2⟩ := h
  have h1q : ((10 * a : ℤ) : ℚ) ≤ (roundHalfEven (10 * x) : ℚ) := by exact_mod_cast h1
  have h2q : (roundHalfEven (10 * x) : ℚ) ≤ ((10 * b : ℤ) : ℚ) := by exact_mod_cast h2
  push_cast at h1q h2q
  unfold round1
  constructor <;> linarith

theorem round2_bounds (a b : ℤ) (x : ℚ)
    (ha : (a : ℚ) ≤ x) (hb : x ≤ (b : ℚ)) :
    (a : ℚ) ≤ round2 x ∧ round2 x ≤ (b : ℚ) := by
  have h := roundHalfEven_bounds (100 * a) (100 * b) (100 * x)
    (by push_cast; linarith) (by push_cast; linarith)
  obtain ⟨h1, h2⟩ := h
  have h1q : ((100 * a : ℤ) : ℚ) ≤ (roundHalfEven (100 * x) : ℚ) := by exact_mod_cast h1
  have h2q : (roundHalfEven (100 * x) : ℚ) ≤ ((100 * b : ℤ) : ℚ) := by exact_mod_cast h2
  push_cast at h1q h2q
  unfold round2
  constructor <;> linarith

theorem pyTrunc_bounds_of_nonneg (A B : ℤ) (x : ℚ)
    (h0 : 0 ≤ x) (hA : (A : ℚ) ≤ x) (hB : x ≤ (B : ℚ)) :
    A ≤ pyTrunc x ∧ pyTrunc x ≤ B := by
  unfold pyTrunc
  rw [if_pos h0]
  constructor
  · exact Int.le_floor.mpr hA
  · have := Int.floor_le_floor hB
    simpa using this

theorem pyTrunc_mono_of_nonneg (x y : ℚ) (h0 : 0 ≤ x) (hxy : x ≤ y) :
    pyTrunc x ≤ pyTrunc y := by
  unfold pyTrunc
  rw [if_pos h0, if_pos (le_trans h0 hxy)]
  exact Int.floor_le_floor hxy

/-! ## Helper lemmas about the health update -/

theorem update_health_status_temperature (e : EngineData) :
    (update_health_status e).temperature = e.temperature := by
  unfold update_health_status
  split_ifs <;> rfl

theorem update_health_status_health (e : EngineData) :
    (update_health_status e).health_status =
      if 100 < e.temperature then .critical
      else if 80 < e.temperature then .warning
      else .normal := by
  unfold update_health_status
  split_ifs <;> rfl

/-! ## Claim C1 -/

/-- C1: the claim asserts that on any real-query failure the fallback
    value cached for each variable lies in that variable's documented
    clamp range.  The fallback is indeed unconditional and silent (every
    failure constructor yields a `some`), but `_generate_simulation_data`
    tests parameter names such as `'temperature' in oid` against the
    numeric OID strings it is actually called with, so no branch ever
    matches: every failure mode caches the fall-through value 0, which is
    outside [20, 120] for temperature and outside [500, 3500] for rpm. -/
theorem c1_fallback_simulation_returns_zero :
    (∀ (f : SimFactors) (port : ℤ),
        query_snmp_agent .no_pysnmp oid_temperature port f = some 0 ∧
        query_snmp_agent .err_indication oid_temperature port f = some 0 ∧
        query_snmp_agent .err_status oid_temperature port f = some 0 ∧
        query_snmp_agent .exn oid_temperature port f = some 0 ∧
        query_snmp_agent .no_pysnmp oid_rpm port f = some 0) ∧
    (update_engine_data (EngineData.init "Engine-1" 1611)
        (fun oid port => query_snmp_agent .no_pysnmp oid port ⟨0, 0, 0, 0⟩) 0).temperature = 0 ∧
    (update_engine_data (EngineData.init "Engine-1" 1611)
        (fun oid port => query_snmp_agent .no_pysnmp oid port ⟨0, 0, 0, 0⟩) 0).rpm = 0 ∧
    ¬ ((20 : ℚ) ≤ 0) ∧ ¬ ((500 : ℤ) ≤ 0) := by
  refine ⟨fun f port => ⟨rfl, rfl, rfl, rfl, rfl⟩, by decide, by decide, by norm_num, by decide⟩

/-! ## Claim C2 -/

/-- C2: after `update_engine_data`, the health status is the pure
    threshold classification of the freshly stored temperature
    (> 100 critical, > 80 warning, otherwise normal), and in particular
    temperature 75 maps to normal, 85 to warning, 105 to critical,
    exactly 80 to normal and exactly 100 to warning. -/
theorem c2_health_is_pure_function_of_fresh_temperature :
    (∀ (e : EngineData) (query : String → ℤ → Option ℚ) (now : ℚ),
        (100 < (update_engine_data e query now).temperature →
          (update_engine_data e query now).health_status = .critical) ∧
        (80 < (update_engine_data e query now).temperature →
          (update_engine_data e query now).temperature ≤ 100 →
          (update_engine_data e query now).health_status = .warning) ∧
        ((update_engine_data e query now).temperature ≤ 80 →
          (update_engine_data e query now).health_status = .normal)) ∧
    (update_engine_data (EngineData.init "Engine-1" 1611)
        (fun _ _ => some 75) 0).health_status = .normal ∧
    (update_engine_data (EngineData.init "Engine-1" 1611)
        (fun _ _ => some 85) 0).health_status = .warning ∧
    (update_engine_data (EngineData.init "Engine-1" 1611)
        (fun _ _ => some 105) 0).health_status = .critical ∧
    (update_engine_data (EngineData.init "Engine-1" 1611)
        (fun _ _ => some 80) 0).health_status = .normal ∧
    (update_engine_data (EngineData.init "Engine-1" 1611)
        (fun _ _ => some 100) 0).health_status = .warning := by
  refine ⟨fun e query now => ?_, by decide, by decide, by decide, by decide, by decide⟩
  have ht : (update_engine_data e query now).temperature = (poll_fold e query).temperature := by
    have h0 : (update_engine_data e query now).temperature =
        (update_health_status (poll_fold e query)).temperature := rfl
    rw [h0, update_health_status_temperature]
  have hh : (update_engine_data e query now).health_status =
      (update_health_status (poll_fold e query)).health_status := rfl
  rw [update_health_status_health] at hh
  refine ⟨?_, ?_, ?_⟩
  · intro h
    rw [ht] at h
    rw [hh, if_pos h]
  · intro h1 h2
    rw [ht] at h1 h2
    rw [hh, if_neg (not_lt.mpr h2), if_pos h1]
  · intro h
    rw [ht] at h
    rw [hh, if_neg (not_lt.mpr (le_trans h (by norm_num))), if_neg (not_lt.mpr h)]

/-- C2 witness: the general classification applied at a concrete poll
    that stores temperature 105. -/
theorem c2_health_is_pure_function_of_fresh_temperature_witness :
    (update_engine_data (EngineData.init "Engine-2" 1612)
        (fun _ _ => some 105) 0).health_status = .critical :=
  (c2_health_is_pure_function_of_fresh_temperature.1
    (EngineData.init "Engine-2" 1612) (fun _ _ => some 105) 0).1 (by decide)

/-! ## Claim C3 -/

/-- A concrete three-engine fleet with temperatures 70, 90, 110 (the
    spec's own summary test vector). -/
def c3_engines : List EngineData :=
  [{ EngineData.init "Engine-1" 1611 with
      temperature := 70
      status := 1
      health_status := .normal },
   { EngineData.init "Engine-2" 1612 with
      temperature := 90
      status := 1
      health_status := .warning },
   { EngineData.init "Engine-3" 1613 with
      temperature := 110
      status := 1
      health_status := .critical }]

/-- C3 counterexample: on an empty fleet `get_engines_summary` divides by
    `total_engines = 0` with no guard, i.e. it raises `ZeroDivisionError`
    (embedded as `none`) rather than being zero-guarded as claimed. -/
theorem c3_empty_fleet_summary_raises : get_engines_summary [] = none := rfl

/-- C3 amended: for every nonempty fleet the summary is defined and its
    `avg_temperature`/`avg_power` are the arithmetic means of the cached
    values (rounded to 1 and 0 decimals as the source does); on the
    spec's three-engine vector with temperatures 70, 90, 110 the average
    temperature is 90.  The empty fleet is not zero-guarded. -/
theorem c3_summary_mean_nonempty :
    (∀ (engines : List EngineData), engines ≠ [] →
      ∃ s, get_engines_summary engines = some s ∧
        s.avg_temperature = round1 (arithmeticMean (engines.map (fun e => e.temperature))) ∧
        s.avg_power = round0 (arithmeticMean (engines.map (fun e => (e.power : ℚ)))) ∧
        s.total_engines = engines.length) ∧
    Option.map (fun s => s.avg_temperature) (get_engines_summary c3_engines) = some 90 := by
  constructor
  · intro engines h
    have hlen : engines.length ≠ 0 := mt List.length_eq_zero.mp h
    unfold get_engines_summary
    rw [if_neg hlen]
    refine ⟨_, rfl, ?_, ?_, rfl⟩
    · simp [arithmeticMean, List.length_map]
    · simp [arithmeticMean, List.length_map]
  · simp [get_engines_summary, c3_engines, EngineData.init]
    norm_num [round1, roundHalfEven]

/-- C3 witness: the amended mean statement applied to the concrete
    three-engine fleet. -/
theorem c3_summary_mean_nonempty_witness :
    ∃ s, get_engines_summary c3_engines = some s ∧
      s.avg_temperature = round1 (arithmeticMean (c3_engines.map (fun e => e.temperature))) ∧
      s.avg_power = round0 (arithmeticMean (c3_engines.map (fun e => (e.power : ℚ)))) ∧
      s.total_engines = c3_engines.length :=
  c3_summary_mean_nonempty.1 c3_engines (by simp [c3_engines])

/-! ## Shared lemmas about the message log -/

theorem log_snmp_message_no_evict (ctx : AgentCtx) (ts : ℕ)
    (log : List LogRecord) (mt : MessageType) (oid : String)
    (value : Option ℚ) (err : Option String)
    (h : log.length < max_log_entries) :
    log_snmp_message ctx ts log mt oid value err =
      log ++ [logEntry ctx ts mt oid value err] := by
  unfold log_snmp_message
  rw [if_neg]
  simp only [List.length_append, List.length_cons, List.length_nil]
  omega

theorem log_snmp_message_evict (ctx : AgentCtx) (ts : ℕ)
    (log : List LogRecord) (mt : MessageType) (oid : String)
    (value : Option ℚ) (err : Option String)
    (h : max_log_entries ≤ log.length) :
    log_snmp_message ctx ts log mt oid value err =
      log.drop 1 ++ [logEntry ctx ts mt oid value err] := by
  unfold log_snmp_message
  rw [if_pos]
  · rw [List.drop_append_of_le_length]
    have : 0 < max_log_entries := by norm_num [max_log_entries]
    omega
  · simp only [List.length_append, List.length_cons, List.length_nil]
    omega

theorem log_snmp_message_length_le (ctx : AgentCtx) (ts : ℕ)
    (log : List LogRecord) (mt : MessageType) (oid : String)
    (value : Option ℚ) (err : Option String)
    (h : log.length ≤ max_log_entries) :
    (log_snmp_message ctx ts log mt oid value err).length ≤ max_log_entries := by
  rcases lt_or_ge log.length max_log_entries with hlt | hge
  · rw [log_snmp_message_no_evict ctx ts log mt oid value err hlt]
    simp only [List.length_append, List.length_cons, List.length_nil]
    omega
  · rw [log_snmp_message_evict ctx ts log mt oid value err hge]
    simp only [List.length_append, List.length_cons, List.length_nil, List.length_drop]
    have : 0 < max_log_entries := by norm_num [max_log_entries]
    omega

theorem log_fold_length_le (ctx : AgentCtx) (inputs : List LogInput) :
    ∀ init : List LogRecord, init.length ≤ max_log_entries →
      (log_fold ctx inputs init).length ≤ max_log_entries := by
  induction inputs with
  | nil =>
    intro init h
    simpa [log_fold] using h
  | cons i rest ih =>
    intro init h
    have hstep : log_fold ctx (i :: rest) init =
        log_fold ctx rest (log_snmp_message ctx i.ts init i.mt i.oid i.value i.err) := rfl
    rw [hstep]
    exact ih _ (log_snmp_message_length_le ctx i.ts init i.mt i.oid i.value i.err h)

/-! ## Claim C4 -/

/-- C4: starting from the empty per-device log, any sequence of
    `log_snmp_message` appends leaves at most 100 records; a single
    append always places the new record at the tail, evicting at most the
    head; and when the log is exactly at capacity the append evicts
    precisely the oldest record (FIFO). -/
theorem c4_log_capacity_and_fifo :
    ∀ (ctx : AgentCtx) (inputs : List LogInput),
      (log_fold ctx inputs []).length ≤ max_log_entries ∧
      (∀ (log : List LogRecord) (i : LogInput),
        log.length = max_log_entries →
        ∃ r, log_snmp_message ctx i.ts log i.mt i.oid i.value i.err =
          log.drop 1 ++ [r]) ∧
      (∀ (log : List LogRecord) (i : LogInput),
        ∃ r, log_snmp_message ctx i.ts log i.mt i.oid i.value i.err = log ++ [r] ∨
          log_snmp_message ctx i.ts log i.mt i.oid i.value i.err = log.drop 1 ++ [r]) := by
  intro ctx inputs
  refine ⟨log_fold_length_le ctx inputs [] (by simp), ?_, ?_⟩
  · intro log i h
    exact ⟨_, log_snmp_message_evict ctx i.ts log i.mt i.oid i.value i.err (le_of_eq h.symm)⟩
  · intro log i
    rcases lt_or_ge log.length max_log_entries with hlt | hge
    · exact ⟨_, Or.inl (log_snmp_message_no_evict ctx i.ts log i.mt i.oid i.value i.err hlt)⟩
    · exact ⟨_, Or.inr (log_snmp_message_evict ctx i.ts log i.mt i.oid i.value i.err hge)⟩

/-- C4 witness: appending to a log of exactly 100 records drops the
    oldest record and appends the new one at the tail. -/
theorem c4_log_capacity_and_fifo_witness :
    ∃ r, log_snmp_message ⟨"Engine-1", 1611, "public"⟩ 7
        (List.replicate 100 (logEntry ⟨"Engine-1", 1611, "public"⟩ 0 .errorReport "x" none none))
        .getRequest oid_temperature none none =
      (List.replicate 100 (logEntry ⟨"Engine-1", 1611, "public"⟩ 0 .errorReport "x" none none)).drop 1
        ++ [r] :=
  (c4_log_capacity_and_fifo ⟨"Engine-1", 1611, "public"⟩ []).2.1
    (List.replicate 100 (logEntry ⟨"Engine-1", 1611, "public"⟩ 0 .errorReport "x" none none))
    ⟨7, .getRequest, oid_temperature, none, none⟩
    (by simp [max_log_entries])

/-! ## Claim C5 -/

/-- C5: `handle_snmp_request` on an OID outside the catalog appends
    exactly one Error record and returns `None`; on a catalog OID whose
    getter evaluates to a value it appends exactly one Request record and
    exactly one Response record, the response immediately following the
    request at the tail, and returns the value (stated below capacity so
    the appends are literal; C4 covers eviction). -/
theorem c5_handle_request_log_pairs :
    ∀ (ctx : AgentCtx) (ts : ℕ) (eval : GetterId → Except String ℚ)
      (log : List LogRecord) (oid : String),
      (mib_lookup oid = none → log.length < max_log_entries →
        ∃ r, handle_snmp_request ctx ts eval log oid = (none, log ++ [r]) ∧
          r.message_type = .errorReport ∧ r.oid = oid) ∧
      (∀ (mib : MibEntry) (v : ℚ), mib_lookup oid = some mib →
        eval mib.getter = .ok v → log.length + 1 < max_log_entries →
        ∃ rq rs, handle_snmp_request ctx ts eval log oid = (some v, log ++ [rq, rs]) ∧
          rq.message_type = .getRequest ∧ rs.message_type = .getResponse ∧
          rs.value = some v ∧ rq.oid = oid ∧ rs.oid = oid) := by
  intro ctx ts eval log oid
  constructor
  · intro hnone hlen
    refine ⟨logEntry ctx ts .errorReport oid none
      (some ("OID " ++ oid ++ " not found")), ?_, rfl, rfl⟩
    simp only [handle_snmp_request, hnone]
    rw [log_snmp_message_no_evict ctx ts log .errorReport oid none _ hlen]
  · intro mib v hsome hok hlen
    refine ⟨logEntry ctx ts .getRequest oid none none,
      logEntry ctx ts .getResponse oid (some v) none, ?_, rfl, rfl, rfl, rfl, rfl⟩
    simp only [handle_snmp_request, hsome, hok]
    rw [log_snmp_message_no_evict ctx ts log .getRequest oid none none (by omega)]
    rw [log_snmp_message_no_evict ctx ts (log ++ [logEntry ctx ts .getRequest oid none none])
      .getResponse oid (some v) none
      (by simp only [List.length_append, List.length_cons, List.length_nil]; omega)]
    simp [List.append_assoc]

/-- C5 witness: a request for the temperature OID on an agent whose
    getter returns 42 logs one request and one response and returns the
    value. -/
theorem c5_handle_request_log_pairs_witness :
    ∃ rq rs, handle_snmp_request ⟨"Engine-1", 1611, "public"⟩ 3
        (fun _ => Except.ok 42) [] oid_temperature = (some 42, [] ++ [rq, rs]) ∧
      rq.message_type = .getRequest ∧ rs.message_type = .getResponse ∧
      rs.value = some 42 ∧ rq.oid = oid_temperature ∧ rs.oid = oid_temperature :=
  (c5_handle_request_log_pairs ⟨"Engine-1", 1611, "public"⟩ 3
      (fun _ => Except.ok 42) [] oid_temperature).2
    ⟨"engineTemperature", "Engine Temperature in Celsius", "Gauge32", "°C", "read-only", .gtemperature⟩
    42 rfl rfl (by simp [max_log_entries])

/-! ## Claim C10 -/

/-- C10: `handle_snmp_request` is total at its interface — when a catalog
    OID's getter raises, the exception is caught, exactly one Error
    record carrying the exception message is appended, and `None` is
    returned (the unknown-OID branch likewise returns `None` with one
    Error record, see C5; the embedded function is total, as the source's
    `try`/`except` never re-raises). -/
theorem c10_handle_request_total_on_getter_failure :
    ∀ (ctx : AgentCtx) (ts : ℕ) (eval : GetterId → Except String ℚ)
      (log : List LogRecord) (oid : String) (mib : MibEntry) (msg : String),
      mib_lookup oid = some mib → eval mib.getter = .error msg →
      log.length < max_log_entries →
      ∃ r, handle_snmp_request ctx ts eval log oid = (none, log ++ [r]) ∧
        r.message_type = .errorReport ∧ r.error = some msg ∧ r.oid = oid := by
  intro ctx ts eval log oid mib msg hsome hraise hlen
  refine ⟨logEntry ctx ts .errorReport oid none (some msg), ?_, rfl, rfl, rfl⟩
  simp only [handle_snmp_request, hsome, hraise]
  rw [log_snmp_message_no_evict ctx ts log .errorReport oid none (some msg) hlen]

/-- C10 witness: a getter that raises with message "boom" on the rpm OID
    yields `None` and one Error record holding that message. -/
theorem c10_handle_request_total_on_getter_failure_witness :
    ∃ r, handle_snmp_request ⟨"Engine-2", 1612, "public"⟩ 5
        (fun _ => Except.error "boom") [] oid_rpm = (none, [] ++ [r]) ∧
      r.message_type = .errorReport ∧ r.error = some "boom" ∧ r.oid = oid_rpm :=
  c10_handle_request_total_on_getter_failure ⟨"Engine-2", 1612, "public"⟩ 5
    (fun _ => Except.error "boom") [] oid_rpm
    ⟨"engineRPM", "Engine RPM (Revolutions Per Minute)", "Gauge32", "RPM", "read-only", .grpm⟩
    "boom" rfl rfl (by simp [max_log_entries])

/-! ## Claim C6 -/

/-- C6: for every agent, every elapsed time and every draw of the
    library-supplied sinusoid and noise values, each getter stays inside
    its documented clamp range — temperature in [20, 120], rpm in
    [500, 3500], current in [0, 30], power in [0, 3000] — while status is
    constantly 1 (Running) and uptime is now minus the start time
    truncated to whole seconds. -/
theorem c6_evaluate_ranges :
    ∀ (a : EnhancedAgent) (sd n1 sl s2 n2 s3 n3 now : ℚ),
      ((20 : ℚ) ≤ get_temperature a sd n1 sl ∧ get_temperature a sd n1 sl ≤ 120) ∧
      ((500 : ℤ) ≤ get_rpm a s2 n2 ∧ get_rpm a s2 n2 ≤ 3500) ∧
      ((0 : ℚ) ≤ get_current a s3 n3 ∧ get_current a s3 n3 ≤ 30) ∧
      ((0 : ℤ) ≤ get_power a s2 n2 s3 n3 ∧ get_power a s2 n2 s3 n3 ≤ 3000) ∧
      get_status a = 1 ∧
      get_uptime a now = pyTrunc (now - a.start_time) := by
  intro a sd n1 sl s2 n2 s3 n3 now
  refine ⟨?_, ?_, ?_, ?_, rfl, rfl⟩
  · unfold get_temperature
    have h := round1_bounds 20 120
      (max 20 (min 120 (a.base_temp + 5 * sd + n1 + 0.3 * sl)))
      (by push_cast; exact le_max_left _ _)
      (by push_cast; exact max_le (by norm_num) (min_le_left _ _))
    exact ⟨by exact_mod_cast h.1, by exact_mod_cast h.2⟩
  · unfold get_rpm
    exact pyTrunc_bounds_of_nonneg 500 3500
      (max 500 (min 3500 (a.base_rpm + 200 * s2 + n2)))
      (le_trans (by norm_num) (le_max_left _ _))
      (by push_cast; exact le_max_left _ _)
      (by push_cast; exact max_le (by norm_num) (min_le_left _ _))
  · unfold get_current
    have h := round2_bounds 0 30
      (max 0 (min 30 (a.base_current + (0.5 * s3) * 5 + n3)))
      (by push_cast; exact le_max_left _ _)
      (by push_cast; exact max_le (by norm_num) (min_le_left _ _))
    exact ⟨by exact_mod_cast h.1, by exact_mod_cast h.2⟩
  · unfold get_power power_from
    exact pyTrunc_bounds_of_nonneg 0 3000
      (max 0 (min 3000 (a.base_power *
        (((get_rpm a s2 n2 : ℚ) / 3000) * (get_current a s3 n3 / 20)))))
      (le_max_left _ _)
      (by push_cast; exact le_max_left _ _)
      (by push_cast; exact max_le (by norm_num) (min_le_left _ _))

/-! ## Claim C7 -/

/-- C7: with the base power held fixed (base powers in this system are
    nonnegative: 1500, 1800, 1200), the clamped, truncated power value is
    monotonically non-decreasing in the product of the rpm ratio
    (rpm / 3000) and the current ratio (current / 20). -/
theorem c7_power_monotone_in_ratio_product :
    ∀ (bp : ℚ) (r1 r2 : ℤ) (c1 c2 : ℚ),
      0 ≤ bp →
      ((r1 : ℚ) / 3000) * (c1 / 20) ≤ ((r2 : ℚ) / 3000) * (c2 / 20) →
      power_from bp r1 c1 ≤ power_from bp r2 c2 := by
  intro bp r1 r2 c1 c2 hbp hle
  unfold power_from
  apply pyTrunc_mono_of_nonneg
  · exact le_max_left _ _
  · exact max_le_max (le_refl (0 : ℚ))
      (min_le_min (le_refl (3000 : ℚ)) (mul_le_mul_of_nonneg_left hle hbp))

/-- C7 witness: for base power 1500, the pair (rpm 1500, current 10) has
    a smaller ratio product than (rpm 1800, current 12.5) and a power
    value no larger. -/
theorem c7_power_monotone_in_ratio_product_witness :
    power_from 1500 1500 10 ≤ power_from 1500 1800 (25/2) :=
  c7_power_monotone_in_ratio_product 1500 1500 1800 10 (25/2)
    (by norm_num) (by norm_num)

/-! ## Claim C8 -/

/-- C8: the polling loop attempts every scheduled cycle — an in-cycle
    exception never terminates it — and the sleep following each cycle is
    5 when that cycle raised and the normal `poll_interval` (2) when it
    completed, so the normal interval resumes on the cycle after a
    successful one (the concrete schedule [error, ok] sleeps [5, 2]). -/
theorem c8_polling_loop_survives_errors :
    (∀ (s : List (Except String Unit)),
      (polling_delays s).length = s.length ∧
      (∀ i : ℕ, (polling_delays s)[i]? = (s[i]?).map
        (fun o => match o with
          | Except.ok _ => poll_interval
          | Except.error _ => 5))) ∧
    polling_delays [Except.error "boom", Except.ok ()] = [5, poll_interval] := by
  constructor
  · intro s
    induction s with
    | nil => exact ⟨rfl, fun i => by simp [polling_delays]⟩
    | cons o rest ih =>
      cases o with
      | ok u =>
        refine ⟨by simp [polling_delays, ih.1], fun i => ?_⟩
        cases i with
        | zero => simp [polling_delays]
        | succ n => simpa [polling_delays] using ih.2 n
      | error e =>
        refine ⟨by simp [polling_delays, ih.1], fun i => ?_⟩
        cases i with
        | zero => simp [polling_delays]
        | succ n => simpa [polling_delays] using ih.2 n
  · rfl

/-! ## Claim C9 -/

/-- A pre-poll cache entry: a hot engine previously classified critical. -/
def c9_old : EngineData :=
  { EngineData.init "Engine-1" 1611 with
      temperature := 105
      rpm := 2000
      current := 10
      power := 1400
      status := 1
      uptime := 5
      last_updated := some 1
      health_status := .critical }

/-- The values of the next poll: a cooled-down reading. -/
def c9_vals : PollValues := ⟨75, 1800, 12, 1400, 1, 10, 2⟩

/-- C9 counterexample: `update_engine_data` mutates the shared entry one
    field at a time, so a reader between the temperature write and the
    health write observes a torn entry — fresh temperature 75 paired with
    the stale critical status — which is neither the prior snapshot nor
    the refreshed one. -/
theorem c9_torn_read_counterexample :
    ¬ (observed c9_old c9_vals 1 = c9_old ∨
       observed c9_old c9_vals 1 = observed c9_old c9_vals (poll_writes c9_vals).length) := by
  decide

/-- C9 amended: the poll's cache update is a fixed sequence of eight
    single-field writes (six telemetry fields, then health, then
    timestamp), each written once with its final value; hence a
    concurrent reader can observe a partially-updated entry, but every
    individual field it observes is either the pre-poll value or the
    post-poll value, and the identity fields never change. -/
theorem c9_amended_fieldwise_atomicity :
    ∀ (e : EngineData) (v : PollValues) (k : ℕ),
      fields_old_or_new (observed e v k) e (observed e v (poll_writes v).length) := by
  intro e v k
  have hfull : observed e v (poll_writes v).length = observed e v 8 := rfl
  rw [hfull]
  rcases k with _ | _ | _ | _ | _ | _ | _ | _ | _ | k <;>
    simp [observed, poll_writes, fields_old_or_new, apply_write, List.take]

end SNMP
